import Mathlib

/-!
Shallow embedding of `src/assets/js/grass-wind.js` (grass-in-wind background
simulation) over the real numbers, together with theorems settling the
specification claims about it.

JavaScript numbers are modelled as `ℝ` (the module is float/trig arithmetic);
`Math.floor`/`Math.ceil` become `Int.floor`/`Int.ceil`, `Math.atan2 y x`
becomes `Complex.arg ⟨x, y⟩`, and division is the Mathlib total division
(junk value `x / 0 = 0`).  Randomly drawn quantities (`Math.random()` calls,
`Date.now()` timestamps) are passed in as explicit parameters.
-/

namespace GrassWind

noncomputable section

/-- The tunable defaults / configuration object (`DEFAULTS`, lines 10-52 of
`grass-wind.js`); only the fields relevant to the simulation core are kept
(appearance colours/alphas play no role in the claims, except `rootSize`
which appears in draw commands). -/
structure Config where
  gridColumnsDesktop : ℕ
  gridColumnsMobile : ℕ
  mobileBreakpoint : ℝ
  bladesPerCell : ℕ
  bladeLengthMin : ℝ
  bladeLengthMax : ℝ
  rootSize : ℝ
  stiffness : ℝ
  damping : ℝ
  maxBend : ℝ
  fieldScale : ℝ
  fieldStrength : ℝ
  fieldSpeed : ℝ
  gustFrequency : ℝ
  gustStrength : ℝ
  gustRadius : ℝ
  gustDuration : ℝ
  mouseStrength : ℝ
  mouseRadius : ℝ
  mouseSmoothing : ℝ

/-- The literal `DEFAULTS` values from the source. -/
def DEFAULTS : Config where
  gridColumnsDesktop := 30
  gridColumnsMobile := 10
  mobileBreakpoint := 768
  bladesPerCell := 1
  bladeLengthMin := 8
  bladeLengthMax := 20
  rootSize := 1.5
  stiffness := 0.015
  damping := 0.85
  maxBend := Real.pi * 2
  fieldScale := 0.003
  fieldStrength := 0.15
  fieldSpeed := 1
  gustFrequency := 0.2
  gustStrength := 0.8
  gustRadius := 200
  gustDuration := 3000
  mouseStrength := 0.5
  mouseRadius := 150
  mouseSmoothing := 0.15

/-- `Math.atan2 y x` modelled as the argument of the complex number `x + y i`
(range `(-π, π]`, `atan2 0 0 = 0`, matching `Complex.arg 0 = 0`). -/
def atan2 (y x : ℝ) : ℝ := Complex.arg ⟨x, y⟩

/-- `noise2D` (lines 59-62): sine-hash pseudo-random value in `[0, 1)`. -/
def noise2D (x y seed : ℝ) : ℝ :=
  let n := Real.sin (x * 12.9898 + y * 78.233 + seed) * 43758.5453
  n - ⌊n⌋

/-- `smoothNoise` (lines 65-89): bilinear interpolation of `noise2D` at the
four surrounding lattice corners with smoothstep-shaped weights. -/
def smoothNoise (x y scale seed : ℝ) : ℝ :=
  let sx := x * scale
  let sy := y * scale
  let x0 : ℝ := ⌊sx⌋
  let y0 : ℝ := ⌊sy⌋
  let x1 := x0 + 1
  let y1 := y0 + 1
  let fx := sx - x0
  let fy := sy - y0
  let u := fx * fx * (3 - 2 * fx)
  let v := fy * fy * (3 - 2 * fy)
  let n00 := noise2D x0 y0 seed
  let n10 := noise2D x1 y0 seed
  let n01 := noise2D x0 y1 seed
  let n11 := noise2D x1 y1 seed
  let nx0 := n00 * (1 - u) + n10 * u
  let nx1 := n01 * (1 - u) + n11 * u
  nx0 * (1 - v) + nx1 * v

/-- `smoothstep` (lines 92-95). -/
def smoothstep (edge0 edge1 x : ℝ) : ℝ :=
  let t := max 0 (min 1 ((x - edge0) / (edge1 - edge0)))
  t * t * (3 - 2 * t)

/-- A grass blade (`GrassBlade`, lines 101-165).  The blade stores its
configuration object, root position, length and its physics state
`(angle, velocity)`. -/
structure GrassBlade where
  config : Config
  rootX : ℝ
  rootY : ℝ
  length : ℝ
  angle : ℝ
  velocity : ℝ

/-- `GrassBlade` constructor (lines 102-111); `rand` stands for the
`Math.random()` draw in `this.angle = (Math.random() - 0.5) * config.maxBend * 2`. -/
def GrassBlade.create (x y length : ℝ) (config : Config) (rand : ℝ) : GrassBlade where
  config := config
  rootX := x
  rootY := y
  length := length
  angle := (rand - 0.5) * config.maxBend * 2
  velocity := 0

/-- `GrassBlade.update` (lines 114-140), translated statement by statement:
wind magnitude, conditional torque, damping, integration, clamp. -/
def GrassBlade.update (b : GrassBlade) (windX windY : ℝ) : GrassBlade :=
  let windMagnitude := Real.sqrt (windX * windX + windY * windY)
  let velocity1 :=
    if windMagnitude > 0.001 then
      let windAngle := atan2 windX (-windY)
      let angleDiff := windAngle - b.angle
      let torque := Real.sin angleDiff * windMagnitude * b.config.stiffness
      b.velocity + torque
    else
      b.velocity
  let velocity2 := velocity1 * b.config.damping
  let angle1 := b.angle + velocity2
  let angle2 := max (-b.config.maxBend) (min b.config.maxBend angle1)
  { b with velocity := velocity2, angle := angle2 }

/-- `GrassBlade.update` with the final clamp (line 139) omitted; used to state
that the clamp hard-stops the angle and leaves the velocity untouched. -/
def GrassBlade.updateNoClamp (b : GrassBlade) (windX windY : ℝ) : GrassBlade :=
  let windMagnitude := Real.sqrt (windX * windX + windY * windY)
  let velocity1 :=
    if windMagnitude > 0.001 then
      let windAngle := atan2 windX (-windY)
      let angleDiff := windAngle - b.angle
      let torque := Real.sin angleDiff * windMagnitude * b.config.stiffness
      b.velocity + torque
    else
      b.velocity
  let velocity2 := velocity1 * b.config.damping
  let angle1 := b.angle + velocity2
  { b with velocity := velocity2, angle := angle1 }

/-- Folding a sequence of wind samples through `GrassBlade.update`. -/
def GrassBlade.updateSeq (b : GrassBlade) (winds : List (ℝ × ℝ)) : GrassBlade :=
  winds.foldl (fun b w => b.update w.1 w.2) b

/-- Blade state after `n` ticks of zero wind (`update(0, 0)` repeatedly). -/
def GrassBlade.settle (b : GrassBlade) : ℕ → GrassBlade
  | 0 => b
  | n + 1 => (b.settle n).update 0 0

/-- The clamp at line 139: `Math.max(-maxBend, Math.min(maxBend, angle))`. -/
def clamp (maxBend x : ℝ) : ℝ := max (-maxBend) (min maxBend x)

/-- A gust (`Gust`, lines 171-216): origin, configuration, birth timestamp,
duration and a fixed direction vector. -/
structure Gust where
  config : Config
  x : ℝ
  y : ℝ
  birthTime : ℝ
  duration : ℝ
  angle : ℝ
  dirX : ℝ
  dirY : ℝ

/-- `Gust` constructor (lines 172-183); `birthTime` stands for the
`Date.now()` call and `angle` for the `Math.random() * Math.PI * 2` draw. -/
def Gust.create (x y : ℝ) (config : Config) (birthTime angle : ℝ) : Gust where
  config := config
  x := x
  y := y
  birthTime := birthTime
  duration := config.gustDuration
  angle := angle
  dirX := Real.cos angle
  dirY := Real.sin angle

/-- `Gust.isAlive` (lines 186-188); `now` stands for `Date.now()`. -/
def Gust.isAlive (g : Gust) (now : ℝ) : Prop :=
  now - g.birthTime < g.duration

/-- The time envelope of line 206:
`smoothstep(0, 0.2, t) * (1 - smoothstep(0.7, 1, t))`. -/
def timeEnvelope (t : ℝ) : ℝ :=
  smoothstep 0 0.2 t * (1 - smoothstep 0.7 1 t)

/-- `Gust.getForce` (lines 191-215); `now` stands for the `Date.now()` call
at line 204. -/
def Gust.getForce (g : Gust) (now x y : ℝ) : ℝ × ℝ :=
  let dx := x - g.x
  let dy := y - g.y
  let dist := Real.sqrt (dx * dx + dy * dy)
  if dist > g.config.gustRadius then (0, 0)
  else
    let distFalloff := 1 - dist / g.config.gustRadius
    let age := now - g.birthTime
    let t := age / g.duration
    let strength := g.config.gustStrength * distFalloff * timeEnvelope t
    (g.dirX * strength, g.dirY * strength)

/-- The fields of `GrassWindBackground` that `getWindForce` (lines 344-375)
reads: configuration, noise time accumulator, current wall clock (`Date.now()`
as observed inside `Gust.getForce`), the live gust list and the pointer
state. -/
structure WindState where
  config : Config
  time : ℝ
  now : ℝ
  gusts : List Gust
  isMouseOver : Bool
  mouseX : ℝ
  mouseY : ℝ
  smoothMouseVelX : ℝ
  smoothMouseVelY : ℝ

/-- The ambient noise-derived wind vector (lines 346-350). -/
def ambientWind (s : WindState) (x y : ℝ) : ℝ × ℝ :=
  let noiseValue := smoothNoise x y s.config.fieldScale s.time
  let noiseAngle := noiseValue * (Real.pi * 2)
  (Real.cos noiseAngle * s.config.fieldStrength,
   Real.sin noiseAngle * s.config.fieldStrength)

/-- `GrassWindBackground.getWindForce` (lines 344-375): ambient noise vector,
then the gust loop accumulation, then the conditional mouse term. -/
def getWindForce (s : WindState) (x y : ℝ) : ℝ × ℝ :=
  let wind0 := ambientWind s x y
  let wind1 := s.gusts.foldl
    (fun w g =>
      let gustForce := g.getForce s.now x y
      (w.1 + gustForce.1, w.2 + gustForce.2)) wind0
  if s.isMouseOver then
    let dx := x - s.mouseX
    let dy := y - s.mouseY
    let dist := Real.sqrt (dx * dx + dy * dy)
    if dist < s.config.mouseRadius ∧ dist > 0 then
      let distFalloff := 1 - dist / s.config.mouseRadius
      let mouseForce := distFalloff * s.config.mouseStrength
      (wind1.1 + s.smoothMouseVelX * mouseForce,
       wind1.2 + s.smoothMouseVelY * mouseForce)
    else wind1
  else wind1

/-- Grid column count (lines 285-286): mobile column count when the width is
at or below the breakpoint, desktop count otherwise. -/
def gridColumns (config : Config) (width : ℝ) : ℕ :=
  if width ≤ config.mobileBreakpoint then config.gridColumnsMobile
  else config.gridColumnsDesktop

/-- Square cell size (line 289): `width / columns`. -/
def cellSize (config : Config) (width : ℝ) : ℝ :=
  width / gridColumns config width

/-- Row count (line 290): `Math.ceil(height / cellSize)`, as the number of
iterations of the `row` loop (non-positive and NaN bounds run zero
iterations, hence `Int.toNat`). -/
def gridRows (config : Config) (width height : ℝ) : ℕ :=
  (⌈height / cellSize config width⌉).toNat

/-- `GrassWindBackground.setupBlades` (lines 281-308), as the list of blade
root positions pushed (row-major, `bladesPerCell` blades centred per cell);
each position receives one `GrassBlade` with a freshly drawn random length. -/
def setupBlades (config : Config) (width height : ℝ) : List (ℝ × ℝ) :=
  (List.range (gridRows config width height)).flatMap fun row =>
    (List.range (gridColumns config width)).flatMap fun _col =>
      (List.range config.bladesPerCell).map fun _b =>
        (_col * cellSize config width + cellSize config width / 2,
         row * cellSize config width + cellSize config width / 2)

/-- The per-frame blade update loop (lines 433-436): each blade is updated
with the wind force sampled at its root. -/
def updateBlades (s : WindState) (blades : List GrassBlade) : List GrassBlade :=
  blades.map fun b =>
    let wind := getWindForce s b.rootX b.rootY
    b.update wind.1 wind.2

/-- Canvas drawing commands issued by `GrassBlade.draw` (lines 143-164). -/
inductive DrawCmd
  | circle (x y r : ℝ)
  | line (x1 y1 x2 y2 : ℝ)

/-- `GrassBlade.draw` (lines 143-164): one root dot then one stroked segment
from the root to the tip. -/
def GrassBlade.draw (b : GrassBlade) : List DrawCmd :=
  let tipX := b.rootX + Real.sin b.angle * b.length
  let tipY := b.rootY - Real.cos b.angle * b.length
  [DrawCmd.circle b.rootX b.rootY b.config.rootSize,
   DrawCmd.line b.rootX b.rootY tipX tipY]

/-- `GrassWindBackground.render` (lines 440-451): the blade-drawing commands
issued for one frame (after the clear). -/
def render (blades : List GrassBlade) : List DrawCmd :=
  blades.flatMap GrassBlade.draw

/-- The blade update step exactly as the specification words it: magnitude,
conditional torque added to the velocity, damping multiplied in, velocity
integrated into the angle, angle clamped. -/
def GrassBlade.updateSpec (b : GrassBlade) (wx wy : ℝ) : GrassBlade :=
  let m := Real.sqrt (wx * wx + wy * wy)
  let vAfterTorque :=
    if m > 0.001 then
      b.velocity + Real.sin (atan2 wx (-wy) - b.angle) * m * b.config.stiffness
    else b.velocity
  let vDamped := vAfterTorque * b.config.damping
  { b with velocity := vDamped,
           angle := clamp b.config.maxBend (b.angle + vDamped) }

/-- The wind-field composition exactly as the claim words it: ambient vector
plus the sum of all gust forces plus a pointer term added whenever the
pointer is over the area and the query point is within `mouseRadius` of it
(no positive-distance proviso). -/
def getWindForceClaimed (s : WindState) (x y : ℝ) : ℝ × ℝ :=
  let wind0 := ambientWind s x y
  let gustSumX := (s.gusts.map fun g => (g.getForce s.now x y).1).sum
  let gustSumY := (s.gusts.map fun g => (g.getForce s.now x y).2).sum
  let dist := Real.sqrt ((x - s.mouseX) * (x - s.mouseX) + (y - s.mouseY) * (y - s.mouseY))
  let mouseTerm : ℝ × ℝ :=
    if s.isMouseOver ∧ dist < s.config.mouseRadius then
      (s.smoothMouseVelX * ((1 - dist / s.config.mouseRadius) * s.config.mouseStrength),
       s.smoothMouseVelY * ((1 - dist / s.config.mouseRadius) * s.config.mouseStrength))
    else (0, 0)
  (wind0.1 + gustSumX + mouseTerm.1, wind0.2 + gustSumY + mouseTerm.2)

/-- The default configuration with `gustRadius` set to `0` — the degenerate
geometry that claim C7 says must be guarded. -/
def cfgZeroRadius : Config := { DEFAULTS with gustRadius := 0 }

/-- The default configuration with the ambient field strength set to `0`
(so the ambient term vanishes and the pointer term is isolated). -/
def cfgNoField : Config := { DEFAULTS with fieldStrength := 0 }

/-- A concrete composer state: pointer over the area at the origin with a
smoothed velocity of `(1, 0)`, no gusts, ambient field switched off. -/
def stMouseAtOrigin : WindState where
  config := cfgNoField
  time := 0
  now := 0
  gusts := []
  isMouseOver := true
  mouseX := 0
  mouseY := 0
  smoothMouseVelX := 1
  smoothMouseVelY := 0

/-- A concrete blade at rest (`velocity = 0`) under the default config. -/
def bladeAtRest : GrassBlade where
  config := DEFAULTS
  rootX := 0
  rootY := 0
  length := 10
  angle := 0
  velocity := 0

/-- A concrete blade with unit angular velocity under the default config. -/
def bladeMoving : GrassBlade where
  config := DEFAULTS
  rootX := 0
  rootY := 0
  length := 10
  angle := 0
  velocity := 1

end

/-! ### Helper lemmas -/

section Lemmas

/-- The cubic `t * t * (3 - 2 * t)` maps `[0, 1]` into `[0, 1]`. -/
theorem smoothcurve_mem {t : ℝ} (h0 : 0 ≤ t) (h1 : t ≤ 1) :
    0 ≤ t * t * (3 - 2 * t) ∧ t * t * (3 - 2 * t) ≤ 1 := by
  constructor
  · nlinarith
  · nlinarith [sq_nonneg (1 - t), mul_nonneg h0 h0]

theorem smoothstep_nonneg (e0 e1 x : ℝ) : 0 ≤ smoothstep e0 e1 x := by
  unfold smoothstep
  have h0 : (0:ℝ) ≤ max 0 (min 1 ((x - e0) / (e1 - e0))) := le_max_left 0 _
  have h1 : max 0 (min 1 ((x - e0) / (e1 - e0))) ≤ 1 := by
    apply max_le (by norm_num)
    exact min_le_left 1 _
  exact (smoothcurve_mem h0 h1).1

theorem smoothstep_le_one (e0 e1 x : ℝ) : smoothstep e0 e1 x ≤ 1 := by
  unfold smoothstep
  have h0 : (0:ℝ) ≤ max 0 (min 1 ((x - e0) / (e1 - e0))) := le_max_left 0 _
  have h1 : max 0 (min 1 ((x - e0) / (e1 - e0))) ≤ 1 := by
    apply max_le (by norm_num)
    exact min_le_left 1 _
  exact (smoothcurve_mem h0 h1).2

theorem timeEnvelope_nonneg (t : ℝ) : 0 ≤ timeEnvelope t := by
  unfold timeEnvelope
  have := smoothstep_nonneg 0 0.2 t
  have := smoothstep_le_one 0.7 1 t
  nlinarith

theorem timeEnvelope_le_one (t : ℝ) : timeEnvelope t ≤ 1 := by
  unfold timeEnvelope
  have h0 := smoothstep_nonneg 0 0.2 t
  have h1 := smoothstep_le_one 0 0.2 t
  have h2 := smoothstep_nonneg 0.7 1 t
  have h3 := smoothstep_le_one 0.7 1 t
  nlinarith

/-- `smoothstep e0 e1 x` is `0` when `x ≤ e0` (for `e0 < e1`). -/
theorem smoothstep_of_le {e0 e1 x : ℝ} (he : e0 < e1) (hx : x ≤ e0) :
    smoothstep e0 e1 x = 0 := by
  unfold smoothstep
  have hd : (x - e0) / (e1 - e0) ≤ 0 :=
    div_nonpos_of_nonpos_of_nonneg (by linarith) (by linarith)
  have : max 0 (min 1 ((x - e0) / (e1 - e0))) = 0 := by
    apply max_eq_left
    exact le_trans (min_le_right _ _) hd
  rw [this]; ring

/-- `smoothstep e0 e1 x` is `1` when `e1 ≤ x` (for `e0 < e1`). -/
theorem smoothstep_of_ge {e0 e1 x : ℝ} (he : e0 < e1) (hx : e1 ≤ x) :
    smoothstep e0 e1 x = 1 := by
  unfold smoothstep
  have hd : (1:ℝ) ≤ (x - e0) / (e1 - e0) := by
    rw [le_div_iff₀ (by linarith)]
    linarith
  have : max 0 (min 1 ((x - e0) / (e1 - e0))) = 1 := by
    rw [min_eq_left hd]
    exact max_eq_right (by norm_num)
  rw [this]; ring

theorem noise2D_mem (x y seed : ℝ) :
    0 ≤ noise2D x y seed ∧ noise2D x y seed < 1 :=
  ⟨Int.fract_nonneg _, Int.fract_lt_one _⟩

/-- A smoothstep-weighted blend of two values of `[0, 1)` stays in `[0, 1)`. -/
theorem lerp_mem {a b u : ℝ} (ha0 : 0 ≤ a) (ha1 : a < 1) (hb0 : 0 ≤ b)
    (hb1 : b < 1) (hu0 : 0 ≤ u) (hu1 : u ≤ 1) :
    0 ≤ a * (1 - u) + b * u ∧ a * (1 - u) + b * u < 1 := by
  constructor
  · have := mul_nonneg ha0 (by linarith : (0:ℝ) ≤ 1 - u)
    have := mul_nonneg hb0 hu0
    linarith
  · rcases lt_or_eq_of_le hu1 with h | h
    · have h1 : a * (1 - u) < 1 * (1 - u) :=
        mul_lt_mul_of_pos_right ha1 (by linarith)
      have h2 : b * u ≤ 1 * u := mul_le_mul_of_nonneg_right hb1.le hu0
      linarith
    · subst h
      simpa using hb1

theorem clamp_abs_le {M : ℝ} (hM : 0 ≤ M) (x : ℝ) : |clamp M x| ≤ M := by
  unfold clamp
  rw [abs_le]
  constructor
  · exact le_max_left _ _
  · exact max_le (by linarith) (min_le_left _ _)

/-- The clamp is 1-Lipschitz. -/
theorem clamp_lipschitz (M x y : ℝ) : |clamp M x - clamp M y| ≤ |x - y| := by
  unfold clamp
  rw [max_comm (-M) (min M x), max_comm (-M) (min M y)]
  refine le_trans (abs_max_sub_max_le_abs _ _ _) ?_
  refine le_trans (abs_min_sub_min_le_max _ _ _ _) ?_
  simp

theorem clamp_of_mem {M x : ℝ} (h : |x| ≤ M) : clamp M x = x := by
  rw [abs_le] at h
  unfold clamp
  rw [min_eq_right h.2]
  exact max_eq_right h.1

theorem GrassBlade.update_config (b : GrassBlade) (wx wy : ℝ) :
    (b.update wx wy).config = b.config := rfl

theorem GrassBlade.updateSeq_config (b : GrassBlade) (ws : List (ℝ × ℝ)) :
    (b.updateSeq ws).config = b.config := by
  induction ws generalizing b with
  | nil => rfl
  | cons w t ih => exact (ih (b.update w.1 w.2)).trans rfl

theorem GrassBlade.abs_update_angle_le (b : GrassBlade) (wx wy : ℝ)
    (hM : 0 ≤ b.config.maxBend) :
    |(b.update wx wy).angle| ≤ b.config.maxBend :=
  clamp_abs_le hM _

theorem GrassBlade.abs_updateSeq_angle_le (b : GrassBlade) (ws : List (ℝ × ℝ))
    (hM : 0 ≤ b.config.maxBend) (hb : |b.angle| ≤ b.config.maxBend) :
    |(b.updateSeq ws).angle| ≤ b.config.maxBend := by
  induction ws generalizing b with
  | nil => exact hb
  | cons w t ih =>
    have h1 := ih (b.update w.1 w.2) hM (b.abs_update_angle_le w.1 w.2 hM)
    exact h1

/-- `smoothNoise` stays in `[0, 1)`: it is a nested smoothstep-weighted blend
of four `noise2D` corner values, each of which lies in `[0, 1)`. -/
theorem smoothNoise_mem (x y scale seed : ℝ) :
    0 ≤ smoothNoise x y scale seed ∧ smoothNoise x y scale seed < 1 := by
  have hfx : 0 ≤ x * scale - (⌊x * scale⌋ : ℝ) ∧ x * scale - (⌊x * scale⌋ : ℝ) < 1 :=
    ⟨Int.fract_nonneg _, Int.fract_lt_one _⟩
  have hfy : 0 ≤ y * scale - (⌊y * scale⌋ : ℝ) ∧ y * scale - (⌊y * scale⌋ : ℝ) < 1 :=
    ⟨Int.fract_nonneg _, Int.fract_lt_one _⟩
  have hu := smoothcurve_mem hfx.1 hfx.2.le
  have hv := smoothcurve_mem hfy.1 hfy.2.le
  have h00 := noise2D_mem (⌊x * scale⌋ : ℝ) (⌊y * scale⌋ : ℝ) seed
  have h10 := noise2D_mem ((⌊x * scale⌋ : ℝ) + 1) (⌊y * scale⌋ : ℝ) seed
  have h01 := noise2D_mem (⌊x * scale⌋ : ℝ) ((⌊y * scale⌋ : ℝ) + 1) seed
  have h11 := noise2D_mem ((⌊x * scale⌋ : ℝ) + 1) ((⌊y * scale⌋ : ℝ) + 1) seed
  have hx0 := lerp_mem h00.1 h00.2 h10.1 h10.2 hu.1 hu.2
  have hx1 := lerp_mem h01.1 h01.2 h11.1 h11.2 hu.1 hu.2
  exact lerp_mem hx0.1 hx0.2 hx1.1 hx1.2 hv.1 hv.2

/-- The gust accumulation loop of `getWindForce` is a plain vector sum. -/
theorem foldl_gust_sum (l : List Gust) (now x y : ℝ) (init : ℝ × ℝ) :
    l.foldl (fun w g =>
      let gustForce := g.getForce now x y
      (w.1 + gustForce.1, w.2 + gustForce.2)) init
    = (init.1 + (l.map fun g => (g.getForce now x y).1).sum,
       init.2 + (l.map fun g => (g.getForce now x y).2).sum) := by
  induction l generalizing init with
  | nil => simp
  | cons g t ih =>
    rw [List.foldl_cons, ih]
    simp only [List.map_cons, List.sum_cons, Prod.mk.injEq]
    constructor <;> ring

theorem length_flatMap_const {α : Type} (l : List ℕ) (f : ℕ → List α) (c : ℕ)
    (h : ∀ a ∈ l, (f a).length = c) : (l.flatMap f).length = l.length * c := by
  induction l with
  | nil => simp
  | cons a t ih =>
    simp only [List.flatMap_cons, List.length_append, h a (by simp),
      List.length_cons]
    rw [ih fun b hb => h b (by simp [hb])]
    ring

theorem GrassBlade.update_zero_velocity (b : GrassBlade) :
    (b.update 0 0).velocity = b.velocity * b.config.damping := by
  simp only [GrassBlade.update]
  rw [if_neg (by norm_num : ¬ Real.sqrt ((0:ℝ) * 0 + 0 * 0) > 0.001)]

theorem GrassBlade.update_zero_angle (b : GrassBlade) :
    (b.update 0 0).angle
      = clamp b.config.maxBend (b.angle + b.velocity * b.config.damping) := by
  simp only [GrassBlade.update, clamp]
  rw [if_neg (by norm_num : ¬ Real.sqrt ((0:ℝ) * 0 + 0 * 0) > 0.001)]

theorem GrassBlade.settle_config (b : GrassBlade) (n : ℕ) :
    (b.settle n).config = b.config := by
  induction n with
  | zero => rfl
  | succ k ih => rw [GrassBlade.settle, GrassBlade.update_config, ih]

theorem GrassBlade.settle_velocity (b : GrassBlade) (n : ℕ) :
    (b.settle n).velocity = b.velocity * b.config.damping ^ n := by
  induction n with
  | zero => simp [GrassBlade.settle]
  | succ k ih =>
    rw [GrassBlade.settle, GrassBlade.update_zero_velocity, ih,
      GrassBlade.settle_config, pow_succ, mul_assoc]

theorem GrassBlade.settle_angle_succ (b : GrassBlade) (n : ℕ) :
    (b.settle (n + 1)).angle
      = clamp b.config.maxBend
          ((b.settle n).angle + b.velocity * b.config.damping ^ (n + 1)) := by
  rw [GrassBlade.settle, GrassBlade.update_zero_angle, GrassBlade.settle_config,
    GrassBlade.settle_velocity, pow_succ, mul_assoc]

theorem timeEnvelope_zero : timeEnvelope 0 = 0 := by
  rw [timeEnvelope, smoothstep_of_le (by norm_num : (0:ℝ) < 0.2) le_rfl]
  ring

theorem timeEnvelope_half : timeEnvelope 0.5 = 1 := by
  rw [timeEnvelope, smoothstep_of_ge (by norm_num : (0:ℝ) < 0.2) (by norm_num),
    smoothstep_of_le (by norm_num : (0.7:ℝ) < 1) (by norm_num)]
  ring

end Lemmas

/-! ### Claim theorems -/

/-- C5: noise-field sampling is deterministic (identical `(x, y, timeOffset)`
arguments give identical results) and range-bounded (both the corner hash
`noise2D` and the sampled `smoothNoise` value lie in `[0, 1)`). -/
theorem claim5_noise_deterministic_bounded :
    (∀ x y scale seed x2 y2 scale2 seed2 : ℝ,
        x = x2 → y = y2 → scale = scale2 → seed = seed2 →
        smoothNoise x y scale seed = smoothNoise x2 y2 scale2 seed2)
    ∧ ∀ x y scale seed : ℝ,
        (0 ≤ smoothNoise x y scale seed ∧ smoothNoise x y scale seed < 1)
        ∧ (0 ≤ noise2D x y seed ∧ noise2D x y seed < 1) := by
  constructor
  · rintro x y scale seed _ _ _ _ rfl rfl rfl rfl
    rfl
  · intro x y scale seed
    exact ⟨smoothNoise_mem x y scale seed, noise2D_mem x y seed⟩

/-- Witness for C5 at a concrete sample point. -/
theorem claim5_noise_deterministic_bounded_witness :
    smoothNoise 1 2 0.003 0 = smoothNoise 1 2 0.003 0
    ∧ 0 ≤ smoothNoise 1 2 0.003 0 ∧ smoothNoise 1 2 0.003 0 < 1 :=
  ⟨claim5_noise_deterministic_bounded.1 1 2 0.003 0 1 2 0.003 0 rfl rfl rfl rfl,
   (claim5_noise_deterministic_bounded.2 1 2 0.003 0).1.1,
   (claim5_noise_deterministic_bounded.2 1 2 0.003 0).1.2⟩

/-- C2: the blade update performs exactly the claimed sequence — wind
magnitude, epsilon-guarded torque into the velocity, damping after the
torque and before integration, velocity added to the angle, then the clamp. -/
theorem claim2_update_sequence (b : GrassBlade) (wx wy : ℝ) :
    b.update wx wy = b.updateSpec wx wy := rfl

/-- C8: a zero-by-zero container yields an empty blade set, and the per-frame
blade update and render loops over an empty collection are no-ops. -/
theorem claim8_degenerate_empty (config : Config) (s : WindState) :
    setupBlades config 0 0 = [] ∧ updateBlades s [] = [] ∧ render [] = [] := by
  refine ⟨?_, rfl, rfl⟩
  simp [setupBlades, gridRows, cellSize]

/-- C1: a blade constructed by the simulation has its angle in
`[-maxBend, maxBend]`, the angle stays in that interval after every prefix of
an arbitrary sequence of wind updates, and the final clamp of the update step
hard-stops the angle while leaving the velocity exactly as computed without
the clamp. -/
theorem claim1_blade_angle_invariant (config : Config) (hM : 0 ≤ config.maxBend)
    (x y len rand : ℝ) (h0 : 0 ≤ rand) (h1 : rand < 1) :
    (∀ (winds : List (ℝ × ℝ)) (n : ℕ),
        |((GrassBlade.create x y len config rand).updateSeq (winds.take n)).angle|
          ≤ config.maxBend)
    ∧ ∀ (b : GrassBlade) (wx wy : ℝ),
        (b.update wx wy).angle = clamp b.config.maxBend ((b.updateNoClamp wx wy).angle)
        ∧ (b.update wx wy).velocity = (b.updateNoClamp wx wy).velocity := by
  constructor
  · intro winds n
    apply GrassBlade.abs_updateSeq_angle_le
    · exact hM
    · show |(rand - 0.5) * config.maxBend * 2| ≤ config.maxBend
      rw [abs_le]
      constructor
      · nlinarith [mul_nonneg hM h0]
      · nlinarith [mul_nonneg hM (by linarith : (0:ℝ) ≤ 1 - rand)]
  · intro b wx wy
    exact ⟨rfl, rfl⟩

/-- Witness for C1: a default-config blade after one concrete update. -/
theorem claim1_blade_angle_invariant_witness :
    (0:ℝ) ≤ DEFAULTS.maxBend
    ∧ |((GrassBlade.create 0 0 10 DEFAULTS 0.5).updateSeq
          (([((1:ℝ), (1:ℝ))]).take 1)).angle| ≤ DEFAULTS.maxBend := by
  have hM : (0:ℝ) ≤ DEFAULTS.maxBend := by
    show (0:ℝ) ≤ Real.pi * 2
    positivity
  exact ⟨hM, (claim1_blade_angle_invariant DEFAULTS hM 0 0 10 0.5 (by norm_num)
    (by norm_num)).1 [(1, 1)] 1⟩

/-- C3: a gust's force is zero outside `gustRadius`; inside it is the fixed
unit direction scaled by `gustStrength * (1 - dist/gustRadius) * envelope`,
where the envelope rises via smoothstep over the first 20% of the life, is 1
in between, and falls via the complementary smoothstep over the last 30%;
at the origin at `birthTime` the force is zero, and at
`birthTime + 0.5 * duration` at the origin its magnitude is `gustStrength`. -/
theorem claim3_gust_force (config : Config) (x y birth gustAngle : ℝ)
    (hR : 0 < config.gustRadius) (hD : 0 < config.gustDuration)
    (hS : 0 ≤ config.gustStrength) :
    Real.cos gustAngle ^ 2 + Real.sin gustAngle ^ 2 = 1
    ∧ (∀ now px py : ℝ,
        config.gustRadius < Real.sqrt ((px - x) * (px - x) + (py - y) * (py - y)) →
        (Gust.create x y config birth gustAngle).getForce now px py = (0, 0))
    ∧ (∀ now px py : ℝ,
        Real.sqrt ((px - x) * (px - x) + (py - y) * (py - y)) ≤ config.gustRadius →
        (Gust.create x y config birth gustAngle).getForce now px py =
          (Real.cos gustAngle * (config.gustStrength *
              (1 - Real.sqrt ((px - x) * (px - x) + (py - y) * (py - y)) /
                config.gustRadius) *
              timeEnvelope ((now - birth) / config.gustDuration)),
           Real.sin gustAngle * (config.gustStrength *
              (1 - Real.sqrt ((px - x) * (px - x) + (py - y) * (py - y)) /
                config.gustRadius) *
              timeEnvelope ((now - birth) / config.gustDuration))))
    ∧ (∀ t : ℝ, t ≤ 0.2 → timeEnvelope t = smoothstep 0 0.2 t)
    ∧ (∀ t : ℝ, 0.2 ≤ t → t ≤ 0.7 → timeEnvelope t = 1)
    ∧ (∀ t : ℝ, 0.7 ≤ t → timeEnvelope t = 1 - smoothstep 0.7 1 t)
    ∧ (Gust.create x y config birth gustAngle).getForce birth x y = (0, 0)
    ∧ Real.sqrt
        (((Gust.create x y config birth gustAngle).getForce
            (birth + 0.5 * config.gustDuration) x y).1 ^ 2
          + ((Gust.create x y config birth gustAngle).getForce
            (birth + 0.5 * config.gustDuration) x y).2 ^ 2) = config.gustStrength := by
  have hd0 : Real.sqrt ((x - x) * (x - x) + (y - y) * (y - y)) = 0 := by
    norm_num
  have hbranch : ¬ Real.sqrt ((x - x) * (x - x) + (y - y) * (y - y))
      > config.gustRadius := by
    rw [hd0]
    exact not_lt.mpr hR.le
  refine ⟨Real.cos_sq_add_sin_sq gustAngle, ?_, ?_, ?_, ?_, ?_, ?_, ?_⟩
  · intro now px py h
    simp only [Gust.getForce, Gust.create]
    rw [if_pos h]
  · intro now px py h
    simp only [Gust.getForce, Gust.create, timeEnvelope]
    rw [if_neg (not_lt.mpr h)]
  · intro t ht
    rw [timeEnvelope, smoothstep_of_le (by norm_num : (0.7:ℝ) < 1)
      (le_trans ht (by norm_num))]
    ring
  · intro t h1 h2
    rw [timeEnvelope, smoothstep_of_ge (by norm_num : (0:ℝ) < 0.2) h1,
      smoothstep_of_le (by norm_num : (0.7:ℝ) < 1) h2]
    ring
  · intro t ht
    rw [timeEnvelope, smoothstep_of_ge (by norm_num : (0:ℝ) < 0.2)
      (le_trans (by norm_num) ht)]
    ring
  · simp only [Gust.getForce, Gust.create]
    rw [if_neg hbranch]
    simp only [sub_self, zero_div, timeEnvelope_zero]
    norm_num
  · have ht : (birth + 0.5 * config.gustDuration - birth) / config.gustDuration
        = 0.5 := by
      rw [show birth + 0.5 * config.gustDuration - birth = 0.5 * config.gustDuration
        by ring]
      exact mul_div_cancel_right₀ 0.5 hD.ne'
    simp only [Gust.getForce, Gust.create]
    rw [if_neg hbranch, ht, timeEnvelope_half, hd0]
    rw [show Real.cos gustAngle * (config.gustStrength * (1 - 0 / config.gustRadius) * 1)
        = Real.cos gustAngle * config.gustStrength by field_simp]
    rw [show Real.sin gustAngle * (config.gustStrength * (1 - 0 / config.gustRadius) * 1)
        = Real.sin gustAngle * config.gustStrength by field_simp]
    rw [show (Real.cos gustAngle * config.gustStrength) ^ 2
        + (Real.sin gustAngle * config.gustStrength) ^ 2
        = config.gustStrength ^ 2 * (Real.sin gustAngle ^ 2 + Real.cos gustAngle ^ 2)
        by ring]
    rw [Real.sin_sq_add_cos_sq, mul_one, Real.sqrt_sq hS]

/-- Witness for C3 with the default configuration. -/
theorem claim3_gust_force_witness :
    ((0:ℝ) < DEFAULTS.gustRadius ∧ (0:ℝ) < DEFAULTS.gustDuration
      ∧ (0:ℝ) ≤ DEFAULTS.gustStrength)
    ∧ (Gust.create 100 100 DEFAULTS 0 0).getForce 0 100 100 = (0, 0) := by
  have h1 : (0:ℝ) < DEFAULTS.gustRadius := by norm_num [DEFAULTS]
  have h2 : (0:ℝ) < DEFAULTS.gustDuration := by norm_num [DEFAULTS]
  have h3 : (0:ℝ) ≤ DEFAULTS.gustStrength := by norm_num [DEFAULTS]
  exact ⟨⟨h1, h2, h3⟩,
    (claim3_gust_force DEFAULTS 100 100 0 0 h1 h2 h3).2.2.2.2.2.2.1⟩

/-- C10: for a constructed gust with positive radius and non-negative
strength, the force magnitude never exceeds `gustStrength`, at every query
point and every time. -/
theorem claim10_gust_force_bounded (config : Config)
    (x y birth gustAngle now px py : ℝ)
    (hR : 0 < config.gustRadius) (hS : 0 ≤ config.gustStrength) :
    Real.sqrt (((Gust.create x y config birth gustAngle).getForce now px py).1 ^ 2
      + ((Gust.create x y config birth gustAngle).getForce now px py).2 ^ 2)
      ≤ config.gustStrength := by
  by_cases h : Real.sqrt ((px - x) * (px - x) + (py - y) * (py - y))
      > config.gustRadius
  · simp only [Gust.getForce, Gust.create]
    rw [if_pos h]
    norm_num [hS]
  · simp only [Gust.getForce, Gust.create]
    rw [if_neg h]
    set d := Real.sqrt ((px - x) * (px - x) + (py - y) * (py - y)) with hdd
    set t := (now - birth) / config.gustDuration with htt
    have hd0 : 0 ≤ d := Real.sqrt_nonneg _
    have hdR : d ≤ config.gustRadius := not_lt.mp h
    have hf0 : 0 ≤ 1 - d / config.gustRadius := by
      rw [sub_nonneg, div_le_one hR]
      exact hdR
    have hf1 : 1 - d / config.gustRadius ≤ 1 := by
      have : 0 ≤ d / config.gustRadius := div_nonneg hd0 hR.le
      linarith
    have he0 := timeEnvelope_nonneg t
    have he1 := timeEnvelope_le_one t
    have hs0 : 0 ≤ config.gustStrength * (1 - d / config.gustRadius)
        * timeEnvelope t :=
      mul_nonneg (mul_nonneg hS hf0) he0
    have hsS : config.gustStrength * (1 - d / config.gustRadius) * timeEnvelope t
        ≤ config.gustStrength :=
      calc config.gustStrength * (1 - d / config.gustRadius) * timeEnvelope t
          ≤ config.gustStrength * (1 - d / config.gustRadius) :=
            mul_le_of_le_one_right (mul_nonneg hS hf0) he1
        _ ≤ config.gustStrength := mul_le_of_le_one_right hS hf1
    rw [show (Real.cos gustAngle *
          (config.gustStrength * (1 - d / config.gustRadius) * timeEnvelope t)) ^ 2
        + (Real.sin gustAngle *
          (config.gustStrength * (1 - d / config.gustRadius) * timeEnvelope t)) ^ 2
        = (config.gustStrength * (1 - d / config.gustRadius) * timeEnvelope t) ^ 2
          * (Real.sin gustAngle ^ 2 + Real.cos gustAngle ^ 2) by ring]
    rw [Real.sin_sq_add_cos_sq, mul_one, Real.sqrt_sq hs0]
    exact hsS

/-- Witness for C10 with the default configuration at a concrete point. -/
theorem claim10_gust_force_bounded_witness :
    ((0:ℝ) < DEFAULTS.gustRadius ∧ (0:ℝ) ≤ DEFAULTS.gustStrength)
    ∧ Real.sqrt (((Gust.create 0 0 DEFAULTS 0 0).getForce 1500 3 4).1 ^ 2
        + ((Gust.create 0 0 DEFAULTS 0 0).getForce 1500 3 4).2 ^ 2)
      ≤ DEFAULTS.gustStrength := by
  have h1 : (0:ℝ) < DEFAULTS.gustRadius := by norm_num [DEFAULTS]
  have h2 : (0:ℝ) ≤ DEFAULTS.gustStrength := by norm_num [DEFAULTS]
  exact ⟨⟨h1, h2⟩, claim10_gust_force_bounded DEFAULTS 0 0 0 0 1500 3 4 h1 h2⟩

/-- C7 failing input: with `gustRadius = 0`, a gust queried exactly at its own
position in mid-life returns a full-strength force `(0.8, 0)` rather than the
zero force the specification requires (in IEEE-754 semantics the
`dist / gustRadius` division is `0 / 0 = NaN`, which propagates into blade
state; in this idealized real model `0 / 0 = 0`, so the falloff factor
becomes `1` and the full gust strength is returned — either way the division
is unguarded and the result is not "no influence"). -/
theorem claim7_zero_radius_failing_input :
    (Gust.create 0 0 cfgZeroRadius 0 0).getForce 1500 0 0 = (0.8, 0)
    ∧ ((0.8 : ℝ), (0 : ℝ)) ≠ ((0 : ℝ), (0 : ℝ)) := by
  constructor
  · simp only [Gust.getForce, Gust.create, cfgZeroRadius]
    rw [if_neg (by norm_num)]
    have hts : ((1500:ℝ) - 0) / ({ DEFAULTS with gustRadius := 0 } : Config).gustDuration
        = 0.5 := by
      norm_num [DEFAULTS]
    rw [hts, timeEnvelope_half]
    norm_num [DEFAULTS]
  · intro h
    have := congrArg Prod.fst h
    norm_num at this

/-- C4 counterexample: the claim adds the pointer term whenever the query
point is within `mouseRadius` of the pointer, but the code also requires the
distance to be strictly positive; at distance exactly `0` (query point at the
pointer) with smoothed velocity `(1, 0)` the code adds nothing while the
claimed formula adds `(0.5, 0)`. -/
theorem claim4_composer_counterexample :
    getWindForce stMouseAtOrigin 0 0 = (0, 0)
    ∧ getWindForceClaimed stMouseAtOrigin 0 0 = (0.5, 0)
    ∧ getWindForce stMouseAtOrigin 0 0 ≠ getWindForceClaimed stMouseAtOrigin 0 0 := by
  have h1 : getWindForce stMouseAtOrigin 0 0 = (0, 0) := by
    simp only [getWindForce, ambientWind, stMouseAtOrigin, cfgNoField, DEFAULTS,
      List.foldl_nil]
    norm_num
  have h2 : getWindForceClaimed stMouseAtOrigin 0 0 = (0.5, 0) := by
    simp only [getWindForceClaimed, ambientWind, stMouseAtOrigin, cfgNoField,
      DEFAULTS, List.map_nil, List.sum_nil]
    norm_num
  refine ⟨h1, h2, ?_⟩
  rw [h1, h2]
  norm_num [Prod.ext_iff]

/-- C4 amended: the composer output is exactly the ambient noise vector plus
the sum of all gust forces plus the pointer term, where the pointer term is
included only when the pointer is over the tracked area and the query point
is within `mouseRadius` of the pointer at strictly positive distance (the
query point exactly at the pointer gets no pointer term); no normalization
is applied to the sum. -/
theorem claim4_composer_amended (s : WindState) (x y : ℝ) :
    getWindForce s x y =
      ((ambientWind s x y).1
          + (s.gusts.map fun g => (g.getForce s.now x y).1).sum
          + (if s.isMouseOver = true
                ∧ Real.sqrt ((x - s.mouseX) * (x - s.mouseX)
                    + (y - s.mouseY) * (y - s.mouseY)) < s.config.mouseRadius
                ∧ 0 < Real.sqrt ((x - s.mouseX) * (x - s.mouseX)
                    + (y - s.mouseY) * (y - s.mouseY))
             then s.smoothMouseVelX
                * ((1 - Real.sqrt ((x - s.mouseX) * (x - s.mouseX)
                      + (y - s.mouseY) * (y - s.mouseY)) / s.config.mouseRadius)
                  * s.config.mouseStrength)
             else 0),
       (ambientWind s x y).2
          + (s.gusts.map fun g => (g.getForce s.now x y).2).sum
          + (if s.isMouseOver = true
                ∧ Real.sqrt ((x - s.mouseX) * (x - s.mouseX)
                    + (y - s.mouseY) * (y - s.mouseY)) < s.config.mouseRadius
                ∧ 0 < Real.sqrt ((x - s.mouseX) * (x - s.mouseX)
                    + (y - s.mouseY) * (y - s.mouseY))
             then s.smoothMouseVelY
                * ((1 - Real.sqrt ((x - s.mouseX) * (x - s.mouseX)
                      + (y - s.mouseY) * (y - s.mouseY)) / s.config.mouseRadius)
                  * s.config.mouseStrength)
             else 0)) := by
  simp only [getWindForce]
  rw [foldl_gust_sum]
  by_cases hm : s.isMouseOver
  · rw [if_pos hm]
    by_cases hc : Real.sqrt ((x - s.mouseX) * (x - s.mouseX)
        + (y - s.mouseY) * (y - s.mouseY)) < s.config.mouseRadius
      ∧ Real.sqrt ((x - s.mouseX) * (x - s.mouseX)
        + (y - s.mouseY) * (y - s.mouseY)) > 0
    · rw [if_pos hc, if_pos ⟨hm, hc.1, hc.2⟩, if_pos ⟨hm, hc.1, hc.2⟩]
    · rw [if_neg hc, if_neg (fun h => hc ⟨h.2.1, h.2.2⟩),
        if_neg (fun h => hc ⟨h.2.1, h.2.2⟩)]
      simp
  · rw [if_neg hm, if_neg (fun h => hm h.1), if_neg (fun h => hm h.1)]
    simp

/-- C6 counterexample: a blade at rest (`velocity = 0`) under the default
damping `0.85 ∈ (0, 1)` receives zero wind, and its `|velocity|` does not
strictly decrease on the next tick (it stays `0`). -/
theorem claim6_strict_decrease_counterexample :
    (0 < DEFAULTS.damping ∧ DEFAULTS.damping < 1)
    ∧ ¬ |(bladeAtRest.update 0 0).velocity| < |bladeAtRest.velocity| := by
  refine ⟨⟨by norm_num [DEFAULTS], by norm_num [DEFAULTS]⟩, ?_⟩
  rw [GrassBlade.update_zero_velocity]
  norm_num [bladeAtRest]

/-- C6 amended: with zero wind applied every tick and damping in `(0, 1)`,
the velocity decays geometrically with ratio `damping` (so `|velocity|`
strictly decreases whenever the velocity is nonzero), and the angle sequence
converges to a limit. -/
theorem claim6_zero_wind_decay_amended (b : GrassBlade)
    (hd0 : 0 < b.config.damping) (hd1 : b.config.damping < 1)
    (hM : 0 ≤ b.config.maxBend) (hb : |b.angle| ≤ b.config.maxBend) :
    (∀ n : ℕ, (b.settle n).velocity = b.velocity * b.config.damping ^ n)
    ∧ (b.velocity ≠ 0 →
        ∀ n : ℕ, |(b.settle (n + 1)).velocity| < |(b.settle n).velocity|)
    ∧ ∃ L : ℝ, Filter.Tendsto (fun n => (b.settle n).angle)
        Filter.atTop (nhds L) := by
  refine ⟨GrassBlade.settle_velocity b, ?_, ?_⟩
  · intro hv n
    rw [GrassBlade.settle_velocity, GrassBlade.settle_velocity, pow_succ,
      ← mul_assoc, abs_mul]
    have hpos : 0 < |b.velocity * b.config.damping ^ n| :=
      abs_pos.mpr (mul_ne_zero hv (pow_ne_zero n hd0.ne'))
    calc |b.velocity * b.config.damping ^ n| * |b.config.damping|
        = |b.velocity * b.config.damping ^ n| * b.config.damping := by
          rw [abs_of_pos hd0]
      _ < |b.velocity * b.config.damping ^ n| * 1 :=
          (mul_lt_mul_of_pos_left hd1 hpos)
      _ = |b.velocity * b.config.damping ^ n| := mul_one _
  · have hinv : ∀ n : ℕ, |(b.settle n).angle| ≤ b.config.maxBend := by
      intro n
      induction n with
      | zero => exact hb
      | succ k _ =>
        rw [GrassBlade.settle_angle_succ]
        exact clamp_abs_le hM _
    have hdist : ∀ n : ℕ,
        dist ((b.settle n).angle) ((b.settle (n + 1)).angle)
          ≤ (|b.velocity| * b.config.damping) * b.config.damping ^ n := by
      intro n
      rw [Real.dist_eq, abs_sub_comm, GrassBlade.settle_angle_succ]
      have hself : (b.settle n).angle = clamp b.config.maxBend ((b.settle n).angle) :=
        (clamp_of_mem (hinv n)).symm
      calc |clamp b.config.maxBend ((b.settle n).angle
              + b.velocity * b.config.damping ^ (n + 1)) - (b.settle n).angle|
          = |clamp b.config.maxBend ((b.settle n).angle
              + b.velocity * b.config.damping ^ (n + 1))
              - clamp b.config.maxBend ((b.settle n).angle)| := by
            rw [← hself]
        _ ≤ |(b.settle n).angle + b.velocity * b.config.damping ^ (n + 1)
              - (b.settle n).angle| := clamp_lipschitz _ _ _
        _ = |b.velocity * b.config.damping ^ (n + 1)| := by ring_nf
        _ = (|b.velocity| * b.config.damping) * b.config.damping ^ n := by
            rw [abs_mul, abs_pow, abs_of_pos hd0, pow_succ]
            ring
    have hcauchy : CauchySeq (fun n => (b.settle n).angle) :=
      cauchySeq_of_le_geometric b.config.damping
        (|b.velocity| * b.config.damping) hd1 hdist
    exact cauchySeq_tendsto_of_complete hcauchy

/-- Witness for C6 amended: a concrete moving blade under the defaults. -/
theorem claim6_zero_wind_decay_amended_witness :
    (0 < DEFAULTS.damping ∧ DEFAULTS.damping < 1 ∧ (0:ℝ) ≤ DEFAULTS.maxBend
      ∧ |bladeMoving.angle| ≤ DEFAULTS.maxBend ∧ bladeMoving.velocity ≠ 0)
    ∧ (bladeMoving.settle 1).velocity
        = bladeMoving.velocity * DEFAULTS.damping ^ 1
    ∧ |(bladeMoving.settle 1).velocity| < |(bladeMoving.settle 0).velocity|
    ∧ ∃ L : ℝ, Filter.Tendsto (fun n => (bladeMoving.settle n).angle)
        Filter.atTop (nhds L) := by
  have hd0 : (0:ℝ) < DEFAULTS.damping := by norm_num [DEFAULTS]
  have hd1 : DEFAULTS.damping < 1 := by norm_num [DEFAULTS]
  have hM : (0:ℝ) ≤ DEFAULTS.maxBend := by
    show (0:ℝ) ≤ Real.pi * 2
    positivity
  have hb : |bladeMoving.angle| ≤ DEFAULTS.maxBend := by
    show |(0:ℝ)| ≤ DEFAULTS.maxBend
    simpa using hM
  have hv : bladeMoving.velocity ≠ 0 := by norm_num [bladeMoving]
  exact ⟨⟨hd0, hd1, hM, hb, hv⟩,
    (claim6_zero_wind_decay_amended bladeMoving hd0 hd1 hM hb).1 1,
    (claim6_zero_wind_decay_amended bladeMoving hd0 hd1 hM hb).2.1 hv 0,
    (claim6_zero_wind_decay_amended bladeMoving hd0 hd1 hM hb).2.2⟩

/-- C9: blade-grid setup picks the mobile column count at or below the
breakpoint and the desktop count above it (10 vs 30 under the defaults), the
square cell size is `width / columns`, the row count is the ceiling of
`height / cellSize`, and exactly `bladesPerCell` blades are created per cell,
centred in the cell; the blade count is `rows * columns * bladesPerCell`. -/
theorem claim9_grid_layout (config : Config) (width height : ℝ)
    (hw : 0 < width) (hh : 0 ≤ height)
    (hcm : 0 < config.gridColumnsMobile) (hcd : 0 < config.gridColumnsDesktop)
    (hb : 0 < config.bladesPerCell) :
    gridColumns config width
        = (if width ≤ config.mobileBreakpoint then config.gridColumnsMobile
           else config.gridColumnsDesktop)
    ∧ DEFAULTS.gridColumnsMobile = 10 ∧ DEFAULTS.gridColumnsDesktop = 30
    ∧ cellSize config width = width / gridColumns config width
    ∧ (gridRows config width height : ℤ) = ⌈height / cellSize config width⌉
    ∧ (setupBlades config width height).length
        = gridRows config width height * gridColumns config width
            * config.bladesPerCell
    ∧ ∀ p : ℝ × ℝ, p ∈ setupBlades config width height ↔
        ∃ row < gridRows config width height, ∃ col < gridColumns config width,
          p = (col * cellSize config width + cellSize config width / 2,
               row * cellSize config width + cellSize config width / 2) := by
  have hcols : 0 < gridColumns config width := by
    unfold gridColumns
    split_ifs
    exacts [hcm, hcd]
  have hcs : 0 < cellSize config width :=
    div_pos hw (by exact_mod_cast hcols)
  refine ⟨rfl, rfl, rfl, rfl, ?_, ?_, ?_⟩
  · exact Int.toNat_of_nonneg (Int.ceil_nonneg (div_nonneg hh hcs.le))
  · unfold setupBlades
    rw [length_flatMap_const _ _
        (gridColumns config width * config.bladesPerCell)
        (fun r _ => (length_flatMap_const _ _ config.bladesPerCell
          (fun c _ => by simp)).trans (by simp))]
    simp [mul_assoc]
  · intro p
    simp only [setupBlades, List.mem_flatMap, List.mem_map, List.mem_range]
    constructor
    · rintro ⟨row, hrow, col, hcol, b, hbB, rfl⟩
      exact ⟨row, hrow, col, hcol, rfl⟩
    · rintro ⟨row, hrow, col, hcol, rfl⟩
      exact ⟨row, hrow, col, hcol, 0, hb, rfl⟩

/-- Witness for C9: an 800 by 600 desktop container (30 columns, 23 rows,
690 blades) versus a 768 by 600 mobile-width container (10 columns, 8 rows,
80 blades). -/
theorem claim9_grid_layout_witness :
    ((0:ℝ) < 800 ∧ (0:ℝ) ≤ 600 ∧ 0 < DEFAULTS.gridColumnsMobile
      ∧ 0 < DEFAULTS.gridColumnsDesktop ∧ 0 < DEFAULTS.bladesPerCell)
    ∧ (setupBlades DEFAULTS 800 600).length = 690
    ∧ (setupBlades DEFAULTS 768 600).length = 80 := by
  have hm : 0 < DEFAULTS.gridColumnsMobile := by norm_num [DEFAULTS]
  have hd : 0 < DEFAULTS.gridColumnsDesktop := by norm_num [DEFAULTS]
  have hbp : 0 < DEFAULTS.bladesPerCell := by norm_num [DEFAULTS]
  have hcolD : gridColumns DEFAULTS 800 = 30 := by
    norm_num [gridColumns, DEFAULTS]
  have hcolM : gridColumns DEFAULTS 768 = 10 := by
    norm_num [gridColumns, DEFAULTS]
  have hrowD : gridRows DEFAULTS 800 600 = 23 := by
    have hceil : ⌈(600:ℝ) / (800 / ((30:ℕ):ℝ))⌉ = 23 := by
      norm_num [Int.ceil_eq_iff]
    rw [gridRows, cellSize, hcolD, hceil]
    rfl
  have hrowM : gridRows DEFAULTS 768 600 = 8 := by
    have hceil : ⌈(600:ℝ) / (768 / ((10:ℕ):ℝ))⌉ = 8 := by
      norm_num [Int.ceil_eq_iff]
    rw [gridRows, cellSize, hcolM, hceil]
    rfl
  refine ⟨⟨by norm_num, by norm_num, hm, hd, hbp⟩, ?_, ?_⟩
  · rw [(claim9_grid_layout DEFAULTS 800 600 (by norm_num) (by norm_num)
      hm hd hbp).2.2.2.2.2.1, hrowD, hcolD]
    norm_num [DEFAULTS]
  · rw [(claim9_grid_layout DEFAULTS 768 600 (by norm_num) (by norm_num)
      hm hd hbp).2.2.2.2.2.1, hrowM, hcolM]
    norm_num [DEFAULTS]

end GrassWind
